import Mathlib

/-!
Shallow embedding of the settings store (`APP_Settings`) and the serial
transport (`SerialReader`) of `src/mcu/src/mcu/other_versions/uart_readerV2.py`.

Conventions of the embedding:

* Python attribute values are modelled by `PyVal` (the application only ever
  stores ints, bools, strings, lists of strings, lists of ints, and 2-tuples
  in setting slots; `pathlib.Path` objects are modelled by their path string).
* The instance dictionary of `APP_Settings` is modelled as an association list
  from attribute name to `SettingValue`; the three name-mangled private
  attributes (`_APP_Settings__lock_protection`, `_APP_Settings__setting_callbacks`,
  `_APP_Settings__updating`) are carried as fields of the `AppSettings`
  structure and re-attached by `instanceDict` where the full `__dict__` matters
  (export).
* `threading.Lock` is not re-entrant: acquiring it while the same thread
  already holds it blocks forever.  Lock state is threaded explicitly as a
  `lockHeld` flag (single-thread view) and a second acquisition yields the
  `Outcome.deadlock` result.
* A raised-and-propagating Python exception is the `Outcome.exn` result,
  carrying the (possibly partially mutated) state at raise time.
* Observer callbacks are identified by their registration names; invoking the
  callbacks is modelled by emitting the list of names in registration order.
-/

namespace UartReaderV2

/-- Python values that the application stores in setting slots or passes to
`update_values` (ints, strings, bools, lists of strings, lists of ints, and
2-tuples). -/
inductive PyVal where
  | int : Int → PyVal
  | str : String → PyVal
  | bool : Bool → PyVal
  | strList : List String → PyVal
  | intList : List Int → PyVal
  | pair : PyVal → PyVal → PyVal
deriving DecidableEq

/-- One attribute slot of the `APP_Settings` instance: one of the three box
classes declared inside `APP_Settings` (lines 62-92), a plain scalar
attribute, the `threading.Lock` object, or the callback dictionary (carrying
the registered observer names in registration order; the callable values are
abstracted). `choiceBox` fields are, in order, the mangled `__default`,
`index` and `choices` attributes; `pathBox` fields are `default`, `path` and
`is_folder`; `dimensionElement` fields are `list` and `editable`. -/
inductive SettingValue where
  | choiceBox : PyVal → PyVal → PyVal → SettingValue
  | pathBox : PyVal → PyVal → Bool → SettingValue
  | dimensionElement : PyVal → Bool → SettingValue
  | plain : PyVal → SettingValue
  | lockObj : SettingValue
  | callbackDict : List String → SettingValue
deriving DecidableEq

/-- Association-list lookup by key (Python attribute access / `dict` lookup). -/
def alookup {β : Type} : List (String × β) → String → Option β
  | [], _ => none
  | (k', v) :: rest, k => if k' = k then some v else alookup rest k

/-- Replace the value stored under a key, inserting nothing if the key is
absent (Python attribute assignment on an existing attribute). -/
def setKey {β : Type} : List (String × β) → String → β → List (String × β)
  | [], _, _ => []
  | (k', v') :: rest, k, v =>
    if k' = k then (k', v) :: rest else (k', v') :: setKey rest k v

/-- State of one `APP_Settings` instance.  `lockHeld` is true while the
current thread holds the lock object created on line 95; `lockAttr` is the
current value of the `_APP_Settings__lock_protection` instance attribute
(`.lockObj` until some `setattr` clobbers it); `callbacksAttr` is the current
value of the `_APP_Settings__setting_callbacks` attribute (`.callbackDict`
with the observer names until clobbered); `updating` is the `__updating`
re-entrancy guard; `values` is the rest of the instance `__dict__`, in
assignment order — the three name-mangled attributes assigned first in
`__init__` (lines 95-97) are carried by the dedicated fields and re-attached
by `instanceDict`. -/
structure AppSettings where
  lockHeld : Bool
  lockAttr : SettingValue
  callbacksAttr : SettingValue
  updating : Bool
  values : List (String × SettingValue)
deriving DecidableEq

/-- Result of running a piece of Python code: normal return, a propagating
exception (carrying the state at raise time), or blocking forever on a second
acquisition of the non-reentrant `threading.Lock`. -/
inductive Outcome (α : Type) where
  | ok : α → Outcome α
  | exn : α → Outcome α
  | deadlock : Outcome α
deriving DecidableEq

/-- The type-directed assignment in the body of `APP_Settings.__update_value`
(lines 208-224), for a key that exists.  For a `ChoiceBox`: an `int` is
assigned to `index`, a `list` (of either element kind) to `choices`, and any
other value is destructured by `index, choices = value` — a 2-tuple
destructures into its components, a 2-character string into its two
1-character substrings, and anything else raises (`none`).  A `PathBox` gets
the value assigned to `path`, a `DimensionElement` to `list`, and every other
attribute is replaced wholesale by `setattr`. -/
def assignValue : SettingValue → PyVal → Option SettingValue
  | .choiceBox d _ cs, .int n => some (.choiceBox d (.int n) cs)
  | .choiceBox d i _, .strList l => some (.choiceBox d i (.strList l))
  | .choiceBox d i _, .intList l => some (.choiceBox d i (.intList l))
  | .choiceBox d _ _, .pair a b => some (.choiceBox d a b)
  | .choiceBox d _ _, .str s =>
    match s.data with
    | [a, b] => some (.choiceBox d (.str (String.mk [a])) (.str (String.mk [b])))
    | _ => none
  | .choiceBox _ _ _, .bool _ => none
  | .pathBox d _ f, v => some (.pathBox d v f)
  | .dimensionElement _ e, v => some (.dimensionElement v e)
  | .plain _, v => some (.plain v)
  | .lockObj, v => some (.plain v)
  | .callbackDict _, v => some (.plain v)

/-- The three name-mangled instance attributes assigned by `__init__` before
the settings (lines 95-97); `hasattr` finds them on the instance. -/
def instancePrivateAttrs : List String :=
  ["_APP_Settings__lock_protection", "_APP_Settings__setting_callbacks",
   "_APP_Settings__updating"]

/-- Attribute names `hasattr` finds on the class rather than in the instance
dictionary: the nested box classes and the methods of the `APP_Settings`
class body (lines 62-273, private methods under their mangled names) together
with the standard attributes every object inherits (`dir()` of a plain-class
instance). -/
def classAttrNames : List String :=
  ["ChoiceBox", "PathBox", "DimensionElement", "register_callback",
   "update_values", "import_settings", "export_settings",
   "_APP_Settings__call_callbacks", "_APP_Settings__update_value",
   "__class__", "__delattr__", "__dict__", "__dir__", "__doc__", "__eq__",
   "__format__", "__ge__", "__getattribute__", "__gt__", "__hash__",
   "__init__", "__init_subclass__", "__le__", "__lt__", "__module__",
   "__ne__", "__new__", "__reduce__", "__reduce_ex__", "__repr__",
   "__setattr__", "__sizeof__", "__str__", "__subclasshook__",
   "__weakref__"]

/-- Data descriptors whose setter rejects every value the application can
supply: assigning a non-dictionary to `__dict__`, a non-class to `__class__`,
or anything to `__weakref__` raises. -/
def specialDescriptorAttrs : List String :=
  ["__dict__", "__class__", "__weakref__"]

/-- Python `hasattr(self, key)` on an `APP_Settings` object: true for keys of
the instance dictionary (the settings in `values` plus the three mangled
private attributes) and for attributes found on the class. -/
def pyHasattr (vals : List (String × SettingValue)) (k : String) : Bool :=
  (alookup vals k).isSome || instancePrivateAttrs.contains k ||
    classAttrNames.contains k

/-- The per-key loop of `APP_Settings.update_values` (lines 233-235) with the
body of `__update_value` (lines 202-224).  For each batch entry whose key
passes `hasattr`, `__update_value` first acquires `__lock_protection`
(raising if that attribute was clobbered by an earlier entry, deadlocking if
the calling thread already holds the lock) and then dispatches on the current
attribute value: a box gets the type-directed assignment; every other
attribute reaches the `setattr` arm — the `_APP_Settings__updating` entry is
reassigned but the `finally` of `update_values` overwrites it with `False`
before anything reads it, so its net effect is nil; clobbering the lock or
callback-dictionary privates is recorded in the dedicated fields; the special
descriptors `__dict__`/`__class__`/`__weakref__` raise; and any other
class-found attribute gains a shadowing instance-dictionary entry, appended
in insertion order.  Keys that fail `hasattr` are skipped.  `Outcome.exn`
carries the state as mutated so far when an assignment raises. -/
def applyBatch : AppSettings → List (String × PyVal) → Outcome AppSettings
  | s, [] => .ok s
  | s, (k, v) :: rest =>
    if pyHasattr s.values k then
      if s.lockAttr ≠ .lockObj then .exn s
      else if s.lockHeld then .deadlock
      else
        match alookup s.values k with
        | some cur =>
          match assignValue cur v with
          | none => .exn s
          | some newv => applyBatch { s with values := setKey s.values k newv } rest
        | none =>
          if k = "_APP_Settings__updating" then applyBatch s rest
          else if k = "_APP_Settings__lock_protection" then
            applyBatch { s with lockAttr := .plain v } rest
          else if k = "_APP_Settings__setting_callbacks" then
            applyBatch { s with callbacksAttr := .plain v } rest
          else if specialDescriptorAttrs.contains k then .exn s
          else applyBatch { s with values := s.values ++ [(k, .plain v)] } rest
    else applyBatch s rest

/-- `APP_Settings.update_values` (lines 226-238): a no-op returning
immediately when the `__updating` guard is set; otherwise it sets the guard,
applies the batch, runs `__call_callbacks` — which re-acquires the lock
(raising if the lock attribute was clobbered, deadlocking if the caller
already holds it) and iterates the callback dictionary (raising if that
attribute no longer is a dictionary) — and clears the guard in a `finally`
(so the guard field, never set in the model, needs no reset).  The second
component of the `ok`/`exn` payload is the list of observer names invoked. -/
def update_values (s : AppSettings) (batch : List (String × PyVal)) :
    Outcome (AppSettings × List String) :=
  if s.updating then .ok (s, [])
  else
    match applyBatch s batch with
    | .deadlock => .deadlock
    | .exn s' => .exn (s', [])
    | .ok s' =>
      if s'.lockAttr ≠ .lockObj then .exn (s', [])
      else if s'.lockHeld then .deadlock
      else
        match s'.callbacksAttr with
        | .callbackDict names => .ok (s', names)
        | _ => .exn (s', [])

/-- `APP_Settings.import_settings` (lines 240-251): under `__lock_protection`,
load the persisted dictionary (`loadResult = none` models `np.load`/`.item()`
raising) and forward it to `update_values`; any exception is caught and
reported as `false`.  Note that `update_values` is called while the lock is
already held. -/
def import_settings (s : AppSettings)
    (loadResult : Option (List (String × PyVal))) : Outcome (AppSettings × Bool) :=
  if s.lockAttr ≠ .lockObj then .exn (s, false)
  else if s.lockHeld then .deadlock
  else
    match loadResult with
    | none => .ok (s, false)
    | some batch =>
      match update_values { s with lockHeld := true } batch with
      | .deadlock => .deadlock
      | .exn (s', _) => .ok ({ s' with lockHeld := false }, false)
      | .ok (s', _) => .ok ({ s' with lockHeld := false }, true)

/-- Whether pickling (as performed by `np.save` on an object dictionary)
succeeds for a stored value: a `threading.Lock` is never picklable, and a
non-empty callback dictionary holds the GUI's lambdas and bound methods,
which do not pickle either. -/
def picklable : SettingValue → Bool
  | .lockObj => false
  | .callbackDict names => names.isEmpty
  | _ => true

/-- The full instance `__dict__` of an `APP_Settings` object: the three
name-mangled private attributes assigned first in `__init__` (lines 95-97)
followed by the setting attributes. -/
def instanceDict (s : AppSettings) : List (String × SettingValue) :=
  ("_APP_Settings__lock_protection", s.lockAttr) ::
  ("_APP_Settings__setting_callbacks", s.callbacksAttr) ::
  ("_APP_Settings__updating", .plain (.bool s.updating)) :: s.values

/-- Python `str.startswith`. -/
def strStartsWith (s p : String) : Bool := p.data.isPrefixOf s.data

/-- The filtered dictionary `new_dict` built by `APP_Settings.export_settings`
(lines 259-267): every key except those starting with an underscore or with
the identity prefix `app_`. -/
def exportFilteredDict (d : List (String × SettingValue)) :
    List (String × SettingValue) :=
  d.filter fun kv =>
    !(strStartsWith kv.1 "__" || strStartsWith kv.1 "_" || strStartsWith kv.1 "app_")

/-- `APP_Settings.export_settings` (lines 253-273): under the lock it builds
the filtered `new_dict` (embedded separately as `exportFilteredDict`, since
line 269 never uses it) and then calls `np.save(filename, self.__dict__)` on
the FULL instance dictionary.  The middle component of the result is the
persisted mapping (`none` when pickling raised); the last component is the
returned boolean.  Pickling the dictionary raises whenever it contains an
unpicklable value, and the exception is caught and reported as `false`. -/
def export_settings (s : AppSettings) :
    Outcome (AppSettings × Option (List (String × SettingValue)) × Bool) :=
  if s.lockAttr ≠ .lockObj then .exn (s, none, false)
  else if s.lockHeld then .deadlock
  else
    let dict := instanceDict s
    if dict.all fun kv => picklable kv.2 then .ok (s, some dict, true)
    else .ok (s, none, false)

/-- The invariant claimed for a `ChoiceBox`: an integer index in range of a
string choice list, so that `choices[index]` (the `__str__` of line 72) is
defined without negative wrap-around. -/
def choiceInvariantB : SettingValue → Bool
  | .choiceBox _ (.int i) (.strList cs) =>
    decide (0 ≤ i) && decide (i < (cs.length : Int))
  | .choiceBox _ _ _ => false
  | _ => true

/-- The path string standing for `pathlib.Path(__file__).parent`. -/
def appFolder : String := "<app_folder>"

/-- The setting attributes assigned by `APP_Settings.__init__`
(lines 100-182), in assignment order, with the values from the source. -/
def defaultSettingsDict : List (String × SettingValue) := [
  ("app_folder", .plain (.str appFolder)),
  ("app_name", .plain (.str "UART Console App for LELEC210x")),
  ("app_version", .plain (.str "0.2.0")),
  ("app_author", .plain (.str "Group E, 2024-2025")),
  ("app_description", .plain (.str "UART reader utilities.")),
  ("logging_level", .plain (.int 10)),
  ("logging_format", .plain (.str "[%(asctime)s] %(levelname)-9s: %(message)s")),
  ("logging_date_format", .plain (.str "%Y-%m-%d %H:%M:%S")),
  ("logging_use_file", .plain (.bool true)),
  ("logging_file",
    .pathBox (.str (appFolder ++ "/uart_reader.log"))
      (.str (appFolder ++ "/uart_reader.log")) false),
  ("logging_file_max_size", .plain (.int 1048576)),
  ("logging_file_backup_count", .plain (.int 3)),
  ("gui_update_rate", .plain (.int 60)),
  ("gui_use_matplotlib_blit", .plain (.bool true)),
  ("gui_min_window_size", .dimensionElement (.intList [800, 600]) true),
  ("gui_default_window_size", .dimensionElement (.intList [640, 720]) false),
  ("plot_name_prefix", .plain (.str "plot")),
  ("plot_name_postfix_timestamp", .plain (.bool true)),
  ("plot_save_types", .choiceBox (.int 0) (.int 0) (.strList ["pdf", "png"])),
  ("plot_save_all_types", .plain (.bool true)),
  ("plot_save_folder_base",
    .pathBox (.str (appFolder ++ "/plots")) (.str (appFolder ++ "/plots")) true),
  ("serial_port", .choiceBox (.int 0) (.int 0) (.strList ["-- No serial port --"])),
  ("serial_baud_rate", .plain (.int 115200)),
  ("serial_timeout", .plain (.int 1)),
  ("serial_allow_write", .plain (.bool false)),
  ("serial_freeze", .plain (.bool false)),
  ("serial_auto_select_index", .plain (.int 1)),
  ("nucleo_config_serial_prefix", .plain (.str "CFG:HEX:")),
  ("nucleo_sample_rate", .plain (.int 10240)),
  ("audio_serial_prefix", .plain (.str "SND:HEX:")),
  ("audio_folder",
    .pathBox (.str (appFolder ++ "/audio")) (.str (appFolder ++ "/audio")) true),
  ("audio_file_name_prefix", .plain (.str "audio")),
  ("audio_file_types",
    .choiceBox (.int 0) (.int 0) (.strList ["wav", "ogg", "mp3", "flac"])),
  ("audio_file_freq", .plain (.int 44100)),
  ("audio_file_channels", .plain (.int 1)),
  ("audio_file_dtype", .plain (.str "int16")),
  ("audio_file_save_numpy", .plain (.bool false)),
  ("audio_file_save_plots", .plain (.bool false)),
  ("audio_file_auto_save", .plain (.bool false)),
  ("audio_freeze", .plain (.bool false)),
  ("mel_serial_prefix", .plain (.str "MEL:HEX:")),
  ("mel_vector_size", .plain (.int 20)),
  ("mel_vector_num", .plain (.int 20)),
  ("mel_samples", .plain (.int 512)),
  ("mel_history_max_mem", .plain (.int 20)),
  ("mel_history_max_shown", .plain (.int 10)),
  ("mel_autosave", .plain (.bool false)),
  ("mel_file_name_prefix", .plain (.str "mel")),
  ("mel_autosave_folder",
    .pathBox (.str (appFolder ++ "/mel")) (.str (appFolder ++ "/mel")) true),
  ("mel_autosave_plots", .plain (.bool false)),
  ("mel_autosave_numpy", .plain (.bool false)),
  ("mel_autosave_clear", .plain (.bool false)),
  ("mel_freeze", .plain (.bool false)),
  ("classifier_use", .plain (.bool false)),
  ("classifier_file_pickle",
    .pathBox (.str (appFolder ++ "/user_classifier.pkl"))
      (.str (appFolder ++ "/user_classifier.pkl")) false),
  ("classifier_file_numpy",
    .pathBox (.str (appFolder ++ "/user_classifier.npy"))
      (.str (appFolder ++ "/user_classifier.npy")) false),
  ("classifier_file_auto_save", .plain (.bool false)),
  ("classifier_file_auto_save_mel", .plain (.bool true)),
  ("classifier_file_auto_save_plots", .plain (.bool false)),
  ("classifier_use_mel_history", .plain (.bool false)),
  ("classifier_history_max_shown", .plain (.int 10))]

/-- A freshly constructed `APP_Settings` object: lock free and intact, no
registered callbacks, guard clear, default setting values. -/
def defaultAppSettings : AppSettings :=
  { lockHeld := false, lockAttr := .lockObj, callbacksAttr := .callbackDict [],
    updating := false, values := defaultSettingsDict }

/-- Whether every batch entry whose key exists in the store carries a value
the type-directed assignment accepts without raising. -/
def batchValid (vals : List (String × SettingValue))
    (batch : List (String × PyVal)) : Bool :=
  batch.all fun kv =>
    match alookup vals kv.1 with
    | some cur => (assignValue cur kv.2).isSome
    | none => true

/-- Whether every batch key either names a setting stored in the instance
dictionary or fails `hasattr` altogether — i.e. the batch touches none of the
non-setting attributes (mangled privates and class-found attributes) whose
update is a `setattr` insertion or an error rather than a box coercion. -/
def batchSettingsOnly (vals : List (String × SettingValue))
    (batch : List (String × PyVal)) : Bool :=
  batch.all fun kv =>
    (alookup vals kv.1).isSome ||
      (!(instancePrivateAttrs.contains kv.1) && !(classAttrNames.contains kv.1))

/-- Value stored under a key after an `update_values` run, when the run
returned normally. -/
def settingAfter (out : Outcome (AppSettings × List String)) (k : String) :
    Option SettingValue :=
  match out with
  | .ok (s, _) => alookup s.values k
  | _ => none

/-!
Serial transport: `SerialReader` (lines 401-615).  The Qt signals
`data_received`, `connection_state` and `error_occurred` become an emitted
event trace; the background thread's procedures are embedded as functions on
the reader state, evaluated at procedure granularity (the per-iteration
interleaving of the Qt thread is sequentialised).  The behaviour of the
operating system and device (whether opening the port raises, whether the
liveness probe fails) enters as explicit parameters.
-/

/-- The underlying `serial.Serial` handle. -/
structure SerialHandle where
  is_open : Bool
deriving DecidableEq

/-- State of one `SerialReader`: `serial` is `_serial`, `running` is
`_running`, `write_queue` is the FIFO content of `_write_queue`, and
`thread_id` is `_thread_id` (set while `run` executes). -/
structure ReaderState where
  serial : Option SerialHandle
  running : Bool
  write_queue : List String
  thread_id : Option Nat
deriving DecidableEq

/-- A freshly constructed `SerialReader` (lines 415-424). -/
def initialReader : ReaderState :=
  { serial := none, running := false, write_queue := [], thread_id := none }

/-- One emitted Qt signal. -/
inductive Event where
  | data_received : String → Event
  | connection_state : Bool → Event
  | error_occurred : String → Event
deriving DecidableEq

/-- `SerialReader.is_connected` (lines 426-430). -/
def is_connected (st : ReaderState) : Bool :=
  match st.serial with
  | none => false
  | some h => h.is_open

/-- Python list indexing with negative wrap-around, `none` on `IndexError`. -/
def pyListGet (l : List String) (i : Int) : Option String :=
  if 0 ≤ i then l.get? i.toNat
  else if -(l.length : Int) ≤ i then l.get? (l.length - (-i).toNat)
  else none

/-- `SerialReader.try_start` (lines 432-451): refuse when the thread is
already running, refuse when the selected choice of the `serial_port` box is
the placeholder (an out-of-range index raises and the surrounding `except`
also returns `false`); otherwise set `_running` and start the thread.  The
boolean is the value returned to the caller.  No signal is emitted anywhere
in `try_start`. -/
def try_start (st : ReaderState) (portIndex : Int) (portChoices : List String) :
    ReaderState × Bool :=
  if st.thread_id ≠ none then (st, false)
  else
    match pyListGet portChoices portIndex with
    | none => (st, false)
    | some p =>
      if p = "-- No serial port --" then (st, false)
      else ({ st with running := true }, true)

/-- `SerialReader.stop` (lines 561-589) as executed on the reader's own
thread (from `_handle_error`): return `true` at once if `_thread_id` is
unset; otherwise clear `_running`, close and drop the handle under the lock,
and skip the join because `QThread.currentThread()` is the reader itself. -/
def stopOwnThread (st : ReaderState) : ReaderState × Bool :=
  if st.thread_id = none then (st, true)
  else ({ st with running := false, serial := none }, true)

/-- `SerialReader._cleanup` (lines 591-608): under the lock close and drop
the handle and drain the write queue, clear `_running`, and emit
`connection_state(False)`. -/
def cleanup (st : ReaderState) : ReaderState × List Event :=
  ({ st with serial := none, write_queue := [], running := false },
   [.connection_state false])

/-- `SerialReader.stop` called from another thread on a running reader,
together with the cooperative wind-down it waits for: after `_running` is
cleared and the handle closed, `run` leaves `_read_loop` at the loop
condition, clears `_thread_id` and calls `_cleanup` (which emits
`connection_state(False)`); `stop` then returns `true`.  On an already
stopped reader it returns `true` immediately with no effect. -/
def stopAndJoin (st : ReaderState) : ReaderState × Bool × List Event :=
  if st.thread_id = none then (st, true, [])
  else
    ({ serial := none, running := false, write_queue := [], thread_id := none },
     true, [.connection_state false])

/-- `SerialReader._handle_error` (lines 610-615): log, emit
`error_occurred(message)`, emit `data_received("CONNECTION_TERMINATED")`,
then call `stop` (which, on the reader's own thread, emits nothing). -/
def handle_error (st : ReaderState) (message : String) :
    ReaderState × List Event :=
  let stopped := stopOwnThread st
  (stopped.1, [.error_occurred message, .data_received "CONNECTION_TERMINATED"])

/-- The fault path of the running thread: inside `_read_loop` the liveness
probe `_check_connection` fails (or `readline` raises `SerialException` or
`OSError`), so `_handle_error(message)` runs and the loop breaks
(lines 507-509 and 522-524); then the `finally` of `run` (lines 461-463)
clears `_thread_id` and calls `_cleanup`. -/
def runFaultPath (st : ReaderState) (message : String) :
    ReaderState × List Event :=
  let faulted := handle_error st message
  let wound := cleanup { faulted.1 with thread_id := none }
  (wound.1, faulted.2 ++ wound.2)

/-- `SerialReader._connect` (lines 465-488): return silently when a handle
already exists; on a successful open store the handle and emit
`connection_state(True)`; when `Serial(...)` raises, call `_cleanup` (which
emits `connection_state(False)`) and re-raise as `RuntimeError` — the last
component records whether the call raised. -/
def connect_attempt (st : ReaderState) (openOk : Bool) :
    ReaderState × List Event × Bool :=
  if st.serial.isSome then (st, [], false)
  else if openOk then
    ({ st with serial := some { is_open := true } },
     [.connection_state true], false)
  else
    let cleaned := cleanup st
    (cleaned.1, cleaned.2, true)

/-- The run of the background thread when opening the port fails: `run`
(lines 453-463) records `_thread_id`, `_connect` raises (after its own
`_cleanup`), the `except` arm calls `_handle_error("Thread error: ...")`,
and the `finally` clears `_thread_id` and calls `_cleanup` again. -/
def runOpenFail (st : ReaderState) (err : String) : ReaderState × List Event :=
  let started : ReaderState := { st with thread_id := some 1 }
  let attempt := connect_attempt started false
  let faulted := handle_error attempt.1 ("Thread error: Connection failed: " ++ err)
  let wound := cleanup { faulted.1 with thread_id := none }
  (wound.1, attempt.2.1 ++ faulted.2 ++ wound.2)

/-- The prefix of a successful run of the background thread: `run` records
`_thread_id` and `_connect` opens the handle and emits
`connection_state(True)`; the thread then sits in `_read_loop`. -/
def runConnectOk (st : ReaderState) : ReaderState × List Event :=
  let started : ReaderState := { st with thread_id := some 1 }
  let attempt := connect_attempt started true
  (attempt.1, attempt.2.1)

/-- `SerialReader.send_data` (lines 548-559): `if not data: return` drops
`None` and the empty string; any other string is appended to the write queue
(`Queue.put` on an unbounded queue, which never blocks). -/
def send_data (st : ReaderState) (data : Option String) : ReaderState :=
  match data with
  | none => st
  | some s =>
    if s = "" then st
    else { st with write_queue := st.write_queue ++ [s] }

/-- Reader states reachable by the modelled operations from a fresh
`SerialReader`. -/
inductive Reachable : ReaderState → Prop where
  | init : Reachable initialReader
  | tryStart (st : ReaderState) (i : Int) (cs : List String) :
      Reachable st → Reachable (try_start st i cs).1
  | connectOk (st : ReaderState) :
      Reachable st → Reachable (runConnectOk st).1
  | openFail (st : ReaderState) (e : String) :
      Reachable st → Reachable (runOpenFail st e).1
  | fault (st : ReaderState) (m : String) :
      Reachable st → Reachable (runFaultPath st m).1
  | stop (st : ReaderState) :
      Reachable st → Reachable (stopAndJoin st).1
  | send (st : ReaderState) (d : Option String) :
      Reachable st → Reachable (send_data st d)

/-- A reader whose thread is connected and running. -/
def connectedReader : ReaderState :=
  { serial := some { is_open := true }, running := true, write_queue := [],
    thread_id := some 1 }

/-- A port choice list with the placeholder and one real device. -/
def badPortChoices : List String :=
  ["-- No serial port --", "COM7 - USB Serial Device"]

/-!
Helper lemmas about association-list update and the batch loop.
-/

theorem alookup_setKey_same {β : Type} (vals : List (String × β)) (k : String)
    (v : β) (h : (alookup vals k).isSome) :
    alookup (setKey vals k v) k = some v := by
  induction vals with
  | nil => simp [alookup] at h
  | cons kv rest ih =>
    obtain ⟨k', v'⟩ := kv
    by_cases hk : k' = k
    · simp [alookup, setKey, hk]
    · simp only [alookup, setKey, if_neg hk] at h ⊢
      exact ih h

theorem alookup_setKey_ne {β : Type} (vals : List (String × β)) (k k' : String)
    (v : β) (h : k' ≠ k) :
    alookup (setKey vals k v) k' = alookup vals k' := by
  induction vals with
  | nil => rfl
  | cons kv rest ih =>
    obtain ⟨k₀, v₀⟩ := kv
    by_cases hk : k₀ = k
    · subst hk
      have hne : ¬k₀ = k' := fun hh => h hh.symm
      simp [alookup, setKey, hne]
    · simp only [alookup, setKey, if_neg hk]
      by_cases hk' : k₀ = k'
      · simp [hk']
      · simp [hk', ih]

theorem alookup_none_of_not_mem {β : Type} (l : List (String × β)) (k : String)
    (h : k ∉ l.map Prod.fst) : alookup l k = none := by
  induction l with
  | nil => rfl
  | cons kv rest ih =>
    obtain ⟨k₀, v₀⟩ := kv
    simp only [List.map_cons, List.mem_cons] at h
    push_neg at h
    simp only [alookup, if_neg (fun hh : k₀ = k => h.1 hh.symm)]
    exact ih h.2

theorem batchValid_congr (batch : List (String × PyVal))
    (vals vals' : List (String × SettingValue))
    (h : ∀ kv, kv ∈ batch → alookup vals' kv.1 = alookup vals kv.1)
    (hv : batchValid vals batch = true) : batchValid vals' batch = true := by
  unfold batchValid at hv ⊢
  rw [List.all_eq_true] at hv ⊢
  intro kv hkv
  rw [h kv hkv]
  exact hv kv hkv

theorem batchSettingsOnly_congr (batch : List (String × PyVal))
    (vals vals' : List (String × SettingValue))
    (h : ∀ kv, kv ∈ batch → alookup vals' kv.1 = alookup vals kv.1)
    (hb : batchSettingsOnly vals batch = true) :
    batchSettingsOnly vals' batch = true := by
  unfold batchSettingsOnly at hb ⊢
  rw [List.all_eq_true] at hb ⊢
  intro kv hkv
  rw [h kv hkv]
  exact hb kv hkv

/-- Main property of the batch loop when the lock is free and intact, the
batch keys are distinct, every batch key either names a stored setting or
fails `hasattr`, and every assignment is accepted: the loop returns normally
with only `values` changed, keys outside the batch are untouched, keys in the
batch and in the store end up holding exactly the type-directed assignment of
the incoming value, and keys absent from the store stay absent. -/
theorem applyBatch_ok (batch : List (String × PyVal)) (s : AppSettings)
    (hla : s.lockAttr = SettingValue.lockObj) (hlh : s.lockHeld = false)
    (hnd : (batch.map Prod.fst).Nodup)
    (hso : batchSettingsOnly s.values batch = true)
    (hv : batchValid s.values batch = true) :
    ∃ vals', applyBatch s batch = .ok { s with values := vals' } ∧
      (∀ k, alookup batch k = none → alookup vals' k = alookup s.values k) ∧
      (∀ k v cur, alookup batch k = some v → alookup s.values k = some cur →
        alookup vals' k = assignValue cur v) ∧
      (∀ k, alookup s.values k = none → alookup vals' k = none) := by
  induction batch generalizing s with
  | nil =>
    exact ⟨s.values, rfl, fun _ _ => rfl,
      fun k v cur h _ => by simp [alookup] at h, fun _ h => h⟩
  | cons kv rest ih =>
    obtain ⟨k₁, v₁⟩ := kv
    simp only [List.map_cons, List.nodup_cons] at hnd
    obtain ⟨hk₁, hndr⟩ := hnd
    unfold batchValid at hv
    simp only [List.all_cons, Bool.and_eq_true] at hv
    obtain ⟨hv₁, hvr⟩ := hv
    unfold batchSettingsOnly at hso
    simp only [List.all_cons, Bool.and_eq_true] at hso
    obtain ⟨hso₁, hsor⟩ := hso
    cases hcur : alookup s.values k₁ with
    | none =>
      have hpy : pyHasattr s.values k₁ = false := by
        cases hb : instancePrivateAttrs.contains k₁ with
        | true => rw [hcur, hb] at hso₁; simp at hso₁
        | false =>
          cases hc : classAttrNames.contains k₁ with
          | true => rw [hcur, hc] at hso₁; simp at hso₁
          | false =>
            unfold pyHasattr
            rw [hcur, hb, hc]
            rfl
      have hstep : applyBatch s ((k₁, v₁) :: rest) = applyBatch s rest := by
        simp [applyBatch, hpy]
      obtain ⟨vals', happ, hframe, hco, hnone⟩ := ih s hla hlh hndr hsor hvr
      refine ⟨vals', by rw [hstep]; exact happ, ?_, ?_, hnone⟩
      · intro k hk
        simp only [alookup] at hk
        by_cases hkk : k₁ = k
        · simp [hkk] at hk
        · rw [if_neg hkk] at hk
          exact hframe k hk
      · intro k v cur hk hcu
        simp only [alookup] at hk
        by_cases hkk : k₁ = k
        · subst hkk
          rw [hcur] at hcu
          cases hcu
        · rw [if_neg hkk] at hk
          exact hco k v cur hk hcu
    | some cur₁ =>
      rw [hcur] at hv₁
      have hv₁' : (assignValue cur₁ v₁).isSome = true := hv₁
      cases hass : assignValue cur₁ v₁ with
      | none => rw [hass] at hv₁'; simp at hv₁'
      | some newv =>
        have hpy : pyHasattr s.values k₁ = true := by
          simp [pyHasattr, hcur]
        have hstep : applyBatch s ((k₁, v₁) :: rest) =
            applyBatch { s with values := setKey s.values k₁ newv } rest := by
          simp [applyBatch, hpy, hla, hlh, hcur, hass]
        have hlk : ∀ kv, kv ∈ rest →
            alookup (setKey s.values k₁ newv) kv.1 = alookup s.values kv.1 := by
          intro kv hkv
          refine alookup_setKey_ne s.values k₁ kv.1 newv ?_
          intro hkk
          exact hk₁ (hkk ▸ List.mem_map.mpr ⟨kv, hkv, rfl⟩)
        obtain ⟨vals', happ, hframe, hco, hnone⟩ :=
          ih { s with values := setKey s.values k₁ newv } hla hlh hndr
            (batchSettingsOnly_congr rest s.values (setKey s.values k₁ newv)
              hlk hsor)
            (batchValid_congr rest s.values (setKey s.values k₁ newv) hlk hvr)
        refine ⟨vals', by rw [hstep]; exact happ, ?_, ?_, ?_⟩
        · intro k hk
          simp only [alookup] at hk
          by_cases hkk : k₁ = k
          · simp [hkk] at hk
          · rw [if_neg hkk] at hk
            rw [hframe k hk]
            exact alookup_setKey_ne s.values k₁ k newv fun h => hkk h.symm
        · intro k v cur hk hcu
          simp only [alookup] at hk
          by_cases hkk : k₁ = k
          · subst hkk
            rw [if_pos rfl] at hk
            cases hk
            rw [hcur] at hcu
            cases hcu
            have hrest : alookup rest k₁ = none :=
              alookup_none_of_not_mem rest k₁ hk₁
            rw [hframe k₁ hrest, hass]
            exact alookup_setKey_same s.values k₁ newv (by rw [hcur]; rfl)
          · rw [if_neg hkk] at hk
            refine hco k v cur hk ?_
            exact (alookup_setKey_ne s.values k₁ k newv
              fun h => hkk h.symm).trans hcu
        · intro k hk
          refine hnone k ?_
          have hkk : k₁ ≠ k := fun h => by rw [h, hk] at hcur; cases hcur
          exact (alookup_setKey_ne s.values k₁ k newv
            fun h => hkk h.symm).trans hk

theorem try_start_fields (st : ReaderState) (i : Int) (cs : List String) :
    (try_start st i cs).1.serial = st.serial ∧
    (try_start st i cs).1.thread_id = st.thread_id := by
  unfold try_start
  split
  · exact ⟨rfl, rfl⟩
  · split
    · exact ⟨rfl, rfl⟩
    · split <;> exact ⟨rfl, rfl⟩

theorem send_data_fields (st : ReaderState) (d : Option String) :
    (send_data st d).serial = st.serial ∧
    (send_data st d).thread_id = st.thread_id := by
  unfold send_data
  cases d with
  | none => exact ⟨rfl, rfl⟩
  | some s => by_cases hs : s = "" <;> simp [hs]

theorem runConnectOk_thread (st : ReaderState) :
    (runConnectOk st).1.thread_id = some 1 := by
  unfold runConnectOk connect_attempt
  cases st.serial <;> simp

theorem runOpenFail_state (st : ReaderState) (e : String) :
    (runOpenFail st e).1 = initialReader := by
  obtain ⟨ser, run, q, tid⟩ := st
  cases ser <;> rfl

theorem runFaultPath_state (st : ReaderState) (m : String) :
    (runFaultPath st m).1 = initialReader := by
  obtain ⟨ser, run, q, tid⟩ := st
  cases tid <;> rfl

/-- In every reachable reader state, a cleared `_thread_id` implies a released
handle: between runs of the background thread `_serial` is `None`. -/
theorem reachable_inv (st : ReaderState) (h : Reachable st) :
    st.thread_id = none → st.serial = none := by
  induction h with
  | init => intro _; rfl
  | tryStart st i cs _ ih =>
    intro ht
    rw [(try_start_fields st i cs).1]
    exact ih ((try_start_fields st i cs).2 ▸ ht)
  | connectOk st _ _ =>
    intro ht
    rw [runConnectOk_thread st] at ht
    cases ht
  | openFail st e _ _ =>
    intro _
    rw [runOpenFail_state st e]
    rfl
  | fault st m _ _ =>
    intro _
    rw [runFaultPath_state st m]
    rfl
  | stop st _ ih =>
    intro ht
    unfold stopAndJoin
    split
    · exact ih ‹st.thread_id = none›
    · rfl
  | send st d _ ih =>
    intro ht
    rw [(send_data_fields st d).1]
    exact ih ((send_data_fields st d).2 ▸ ht)

theorem applyBatch_locked (batch : List (String × PyVal)) (s : AppSettings)
    (hla : s.lockAttr = SettingValue.lockObj) (hlh : s.lockHeld = true) :
    applyBatch s batch = .deadlock ∨ applyBatch s batch = .ok s := by
  induction batch with
  | nil => exact Or.inr rfl
  | cons kv rest ih =>
    obtain ⟨k, v⟩ := kv
    by_cases hpy : pyHasattr s.values k = true
    · exact Or.inl (by simp [applyBatch, hpy, hla, hlh])
    · rw [show applyBatch s ((k, v) :: rest) = applyBatch s rest by
        simp [applyBatch, hpy]]
      exact ih

theorem update_values_locked (s : AppSettings) (batch : List (String × PyVal))
    (hupd : s.updating = false) (hla : s.lockAttr = SettingValue.lockObj)
    (hlh : s.lockHeld = true) :
    update_values s batch = .deadlock := by
  rcases applyBatch_locked batch s hla hlh with h | h <;>
    simp [update_values, hupd, hla, hlh, h]

/-!
Claim theorems.
-/

/-- C4: if `update_values` is invoked while another update is already in
progress (the `__updating` guard is set, as it is during observer dispatch),
the re-entrant call is a no-op: the state is returned unchanged, no observer
is invoked, and the outcome is a normal return (no exception, no deadlock) —
the call is silently dropped, not queued. -/
theorem update_values_reentrant_noop (s : AppSettings)
    (batch : List (String × PyVal)) (h : s.updating = true) :
    update_values s batch = .ok (s, []) := by
  simp [update_values, h]

theorem update_values_reentrant_noop_witness :
    update_values { defaultAppSettings with updating := true }
        [("serial_freeze", PyVal.bool true)] =
      .ok ({ defaultAppSettings with updating := true }, []) :=
  update_values_reentrant_noop { defaultAppSettings with updating := true }
    [("serial_freeze", PyVal.bool true)] rfl

/-- C5 counterexample: a batch key unknown to the settings store is not
always silently ignored — `hasattr` also accepts the class's own attributes,
so the batch entry `update_values ↦ 5` reaches the `setattr` arm and inserts
a new instance-dictionary key (shadowing the method), and the batch entry
`__dict__ ↦ 5` raises a `TypeError` that propagates out of `update_values`. -/
theorem unknown_key_not_ignored_cex :
    alookup defaultAppSettings.values "update_values" = none ∧
    settingAfter (update_values defaultAppSettings
        [("update_values", PyVal.int 5)]) "update_values" =
      some (.plain (.int 5)) ∧
    update_values defaultAppSettings [("__dict__", PyVal.int 5)] =
      .exn (defaultAppSettings, []) := by
  exact ⟨rfl, rfl, rfl⟩

/-- C5 (amended): for a batch with distinct keys whose values the
type-directed assignment accepts and whose keys each either name a stored
setting or fail `hasattr`, `update_values` returns normally after invoking
every registered observer once; every key not in the batch keeps its previous
value, every key present in both the batch and the store holds exactly the
result of the source's type-directed coercion of the incoming value against
the existing box, and batch keys that are no attribute of the settings object
at all are ignored (never inserted, never an error).  Batch keys naming
non-setting attributes (methods, nested classes, inherited dunders, mangled
privates) are excluded: the source does not ignore them — it `setattr`s them
or raises (see the counterexample). -/
theorem update_values_frame_and_coerce (s : AppSettings)
    (batch : List (String × PyVal)) (cbs : List String)
    (hupd : s.updating = false) (hlock : s.lockHeld = false)
    (hla : s.lockAttr = SettingValue.lockObj)
    (hcb : s.callbacksAttr = SettingValue.callbackDict cbs)
    (hnd : (batch.map Prod.fst).Nodup)
    (hso : batchSettingsOnly s.values batch = true)
    (hv : batchValid s.values batch = true) :
    ∃ s', update_values s batch = .ok (s', cbs) ∧
      (∀ k, alookup batch k = none → alookup s'.values k = alookup s.values k) ∧
      (∀ k v cur, alookup batch k = some v → alookup s.values k = some cur →
        alookup s'.values k = assignValue cur v) ∧
      (∀ k, alookup s.values k = none → alookup s'.values k = none) := by
  obtain ⟨vals', happ, h1, h2, h3⟩ := applyBatch_ok batch s hla hlock hnd hso hv
  exact ⟨{ s with values := vals' },
    by simp [update_values, hupd, hlock, hla, hcb, happ], h1, h2, h3⟩

theorem update_values_frame_and_coerce_witness :
    (([("serial_freeze", PyVal.bool true),
       ("no_such_key", PyVal.int 7)].map Prod.fst).Nodup ∧
      batchSettingsOnly defaultAppSettings.values
        [("serial_freeze", PyVal.bool true), ("no_such_key", PyVal.int 7)] = true ∧
      batchValid defaultAppSettings.values
        [("serial_freeze", PyVal.bool true), ("no_such_key", PyVal.int 7)] = true) ∧
    (∃ s', update_values defaultAppSettings
        [("serial_freeze", PyVal.bool true), ("no_such_key", PyVal.int 7)] =
        .ok (s', []) ∧
      (∀ k, alookup [("serial_freeze", PyVal.bool true),
          ("no_such_key", PyVal.int 7)] k = none →
        alookup s'.values k = alookup defaultAppSettings.values k) ∧
      (∀ k v cur, alookup [("serial_freeze", PyVal.bool true),
          ("no_such_key", PyVal.int 7)] k = some v →
        alookup defaultAppSettings.values k = some cur →
        alookup s'.values k = assignValue cur v) ∧
      (∀ k, alookup defaultAppSettings.values k = none →
        alookup s'.values k = none)) :=
  ⟨⟨by decide, by decide, by decide⟩,
    update_values_frame_and_coerce defaultAppSettings
      [("serial_freeze", PyVal.bool true), ("no_such_key", PyVal.int 7)] []
      rfl rfl rfl rfl (by decide) (by decide) (by decide)⟩

/-- C6 counterexample: an `update_values` batch carrying the out-of-range
index 5 for the two-element choice box `plot_save_types` is neither rejected
nor clamped — the box afterwards holds index 5 with two choices, violating
the claimed invariant `index < len(choices)`. -/
theorem choice_update_unchecked_cex :
    settingAfter (update_values defaultAppSettings
        [("plot_save_types", PyVal.int 5)]) "plot_save_types" =
      some (.choiceBox (.int 0) (.int 5) (.strList ["pdf", "png"])) ∧
    choiceInvariantB (.choiceBox (.int 0) (.int 5) (.strList ["pdf", "png"])) =
      false := by
  exact ⟨rfl, rfl⟩

/-- C6 (amended): every `ChoiceBox` constructed by `APP_Settings.__init__`
satisfies `index < len(choices)`, and an integer-index update preserves the
invariant when the supplied index is in range of the current choices; the
source performs no bounds check, so out-of-range updates are neither rejected
nor clamped (see the counterexample). -/
theorem choice_invariant_in_range (d i : PyVal) (n : Int) (cs : List String)
    (hn : 0 ≤ n) (hlt : n < (cs.length : Int)) :
    defaultSettingsDict.all (fun kv => choiceInvariantB kv.2) = true ∧
    assignValue (.choiceBox d i (.strList cs)) (.int n) =
      some (.choiceBox d (.int n) (.strList cs)) ∧
    choiceInvariantB (.choiceBox d (.int n) (.strList cs)) = true := by
  refine ⟨by decide, rfl, ?_⟩
  simp [choiceInvariantB, hn, hlt]

theorem choice_invariant_in_range_witness :
    ((0 : Int) ≤ 1 ∧ (1 : Int) < ((["pdf", "png"] : List String).length : Int)) ∧
    (defaultSettingsDict.all (fun kv => choiceInvariantB kv.2) = true ∧
     assignValue (.choiceBox (.int 0) (.int 0) (.strList ["pdf", "png"]))
         (.int 1) =
       some (.choiceBox (.int 0) (.int 1) (.strList ["pdf", "png"])) ∧
     choiceInvariantB (.choiceBox (.int 0) (.int 1) (.strList ["pdf", "png"])) =
       true) :=
  ⟨⟨by decide, by decide⟩,
    choice_invariant_in_range (.int 0) (.int 0) 1 ["pdf", "png"]
      (by decide) (by decide)⟩

/-- C3: on the default store, `export_settings` returns `false` (the full
`__dict__` it hands to `np.save` contains the unpicklable `threading.Lock`,
so the save raises and the `except` arm reports failure); the dictionary it
passes to `np.save` contains the identity key `app_name`, while the filtered
`new_dict` the source builds on lines 259-267 — and then never uses — does
exclude it. -/
theorem export_settings_saves_full_dict :
    export_settings defaultAppSettings = .ok (defaultAppSettings, none, false) ∧
    alookup (instanceDict defaultAppSettings) "app_name" =
      some (.plain (.str "UART Console App for LELEC210x")) ∧
    alookup (exportFilteredDict (instanceDict defaultAppSettings)) "app_name" =
      none := by
  exact ⟨rfl, rfl, by decide⟩

/-- C7: `import_settings` deadlocks on every source whose persisted mapping
loads successfully — it calls `update_values` while already holding the
non-reentrant `__lock_protection`, and the first existing key (or, failing
that, the observer dispatch) re-acquires that lock; when loading raises, the
failure is caught and reported as `false` with the store unchanged. -/
theorem import_settings_locks_up (batch : List (String × PyVal)) :
    import_settings defaultAppSettings (some batch) = .deadlock ∧
    import_settings defaultAppSettings none = .ok (defaultAppSettings, false) := by
  constructor
  · have h : update_values
        { lockHeld := true, lockAttr := .lockObj,
          callbacksAttr := .callbackDict [], updating := false,
          values := defaultSettingsDict } batch = .deadlock :=
      update_values_locked _ batch rfl rfl rfl
    simp [import_settings, defaultAppSettings, h]
  · rfl

/-- C1 counterexample: on a connected reader whose liveness check fails, the
second emitted event is the synthetic `line-received("CONNECTION_TERMINATED")`
and not `state-changed(connected=false)` — the claimed order (error, then
state-changed, then the synthetic line) does not hold. -/
theorem fault_path_order_cex :
    (runFaultPath connectedReader "Serial port disconnected unexpectedly").2.get? 1 =
      some (Event.data_received "CONNECTION_TERMINATED") ∧
    ¬((runFaultPath connectedReader "Serial port disconnected unexpectedly").2.get? 1 =
      some (Event.connection_state false)) := by
  exact ⟨rfl, by decide⟩

/-- C1 (amended): for every connected `SerialReader` whose liveness check
fails or whose read path raises, the fault path emits exactly one `error`
event, exactly one `line-received` event with literal payload
`"CONNECTION_TERMINATED"`, and exactly one `state-changed(connected=false)`
event, in the order error first, then the synthetic line event, then
state-changed(false); afterwards the transport is disconnected and the serial
handle is released. -/
theorem fault_path_events (st : ReaderState) (m : String)
    (h : is_connected st = true) :
    runFaultPath st m =
      (initialReader,
       [Event.error_occurred m, Event.data_received "CONNECTION_TERMINATED",
        Event.connection_state false]) ∧
    initialReader.serial = none ∧ is_connected initialReader = false := by
  refine ⟨?_, rfl, rfl⟩
  obtain ⟨ser, run, q, tid⟩ := st
  cases tid <;> rfl

theorem fault_path_events_witness :
    is_connected connectedReader = true ∧
    (runFaultPath connectedReader "Serial port disconnected unexpectedly" =
      (initialReader,
       [Event.error_occurred "Serial port disconnected unexpectedly",
        Event.data_received "CONNECTION_TERMINATED",
        Event.connection_state false]) ∧
     initialReader.serial = none ∧ is_connected initialReader = false) :=
  ⟨rfl, fault_path_events connectedReader "Serial port disconnected unexpectedly" rfl⟩

/-- C2 counterexample: for a reader configured with a real port whose open
then fails, `try_start` reports success (`true`) to the immediate caller —
the failure is only detected inside the background thread — and events are
emitted to observers. -/
theorem connect_failure_cex :
    (try_start initialReader 1 badPortChoices).2 = true ∧
    (runOpenFail (try_start initialReader 1 badPortChoices).1
      "could not open port").2 ≠ [] := by
  exact ⟨rfl, by decide⟩

/-- C2 (amended): if the selected `serial_port` choice is the placeholder
`"-- No serial port --"`, the connect request returns `false` to the caller
with the state unchanged and no event is emitted (the thread never starts);
if a real port is selected but opening it fails inside the background thread,
`try_start` has already returned `true`, and the thread emits
`state-changed(false)` (from `_connect`'s cleanup), then `error`, then
`line-received("CONNECTION_TERMINATED")`, then a second
`state-changed(false)`. -/
theorem connect_failure_paths (st : ReaderState) (i : Int) (cs : List String)
    (err p : String) (hth : st.thread_id = none) (hser : st.serial = none)
    (hp : pyListGet cs i = some p) :
    (p = "-- No serial port --" → try_start st i cs = (st, false)) ∧
    (p ≠ "-- No serial port --" →
      (try_start st i cs).2 = true ∧
      (runOpenFail (try_start st i cs).1 err).2 =
        [Event.connection_state false,
         Event.error_occurred ("Thread error: Connection failed: " ++ err),
         Event.data_received "CONNECTION_TERMINATED",
         Event.connection_state false]) := by
  constructor
  · intro hpe
    subst hpe
    simp [try_start, hth, hp]
  · intro hne
    have h1 : try_start st i cs = ({ st with running := true }, true) := by
      simp [try_start, hth, hp, hne]
    rw [h1]
    refine ⟨rfl, ?_⟩
    obtain ⟨ser, run, q, tid⟩ := st
    cases ser with
    | none => rfl
    | some hdl => simp at hser

theorem connect_failure_paths_witness :
    try_start initialReader 0 badPortChoices = (initialReader, false) :=
  (connect_failure_paths initialReader 0 badPortChoices "could not open port"
    "-- No serial port --" rfl rfl rfl).1 rfl

/-- C8: `send_data` is a no-op on `None` and on the empty string (the write
queue, and the whole state, are unchanged), and every non-empty string is
appended at the tail of the write queue — the embedding is a total function,
mirroring that `Queue.put` on the unbounded queue returns without blocking. -/
theorem send_data_queue (st : ReaderState) (s : String) :
    send_data st none = st ∧
    send_data st (some "") = st ∧
    (s ≠ "" → send_data st (some s) =
        { st with write_queue := st.write_queue ++ [s] } ∧
      (send_data st (some s)).write_queue.length =
        st.write_queue.length + 1) := by
  refine ⟨rfl, rfl, fun hs => ?_⟩
  have h : send_data st (some s) =
      { st with write_queue := st.write_queue ++ [s] } := by
    simp [send_data, hs]
  exact ⟨h, by rw [h]; simp⟩

theorem send_data_queue_witness :
    send_data initialReader (some "hello") =
      { initialReader with
        write_queue := initialReader.write_queue ++ ["hello"] } :=
  ((send_data_queue initialReader "hello").2.2 (by decide)).1

/-- C9: `stop` always reports success, and calling `stop` twice in a row is
safe and idempotent — after the first call has completed, `_thread_id` is
unset, so the second call returns `true` immediately with the state
unchanged, no event emitted, and no handle operation. -/
theorem stop_idempotent (st : ReaderState) :
    (stopAndJoin st).2.1 = true ∧
    stopAndJoin (stopAndJoin st).1 = ((stopAndJoin st).1, true, []) := by
  obtain ⟨ser, run, q, tid⟩ := st
  cases tid <;> exact ⟨rfl, rfl⟩

/-- C10: after `stop()` returns on any reachable reader state, the serial
handle is released (`_serial = None`), so `is_connected` reports `false`, and
it keeps reporting `false` after subsequent `send_data` calls (only a new
connection attempt can change it). -/
theorem stop_then_disconnected (st : ReaderState) (d : Option String)
    (hr : Reachable st) :
    (stopAndJoin st).1.serial = none ∧
    is_connected (stopAndJoin st).1 = false ∧
    is_connected (send_data (stopAndJoin st).1 d) = false := by
  have hser : (stopAndJoin st).1.serial = none := by
    unfold stopAndJoin
    split
    · exact reachable_inv st hr ‹st.thread_id = none›
    · rfl
  refine ⟨hser, ?_, ?_⟩
  · simp [is_connected, hser]
  · simp [is_connected, (send_data_fields (stopAndJoin st).1 d).1, hser]

theorem stop_then_disconnected_witness :
    (stopAndJoin initialReader).1.serial = none ∧
    is_connected (stopAndJoin initialReader).1 = false ∧
    is_connected (send_data (stopAndJoin initialReader).1 none) = false :=
  stop_then_disconnected initialReader none Reachable.init

end UartReaderV2
